import Mathlib

/-!
Verification of the City Planning MCP server (MLserver.py).

The seven analytical kernels and the tool dispatcher are embedded
shallowly: Python floats become ℚ, Python ints become ℤ / ℕ, dict
arguments become a structure of optional fields, and every call into an
external ML library (scikit-learn, statsmodels, numpy) is a field of an
abstract `Backends` structure returning `Except String _`, so that a
library fault is an explicit error value.  The process-global numpy RNG
and the `self.models` registry are threaded explicitly through the
dispatcher so that statements about state (determinism of seeded
kernels, immutability of the registry) are expressible.
-/

/-- Python `int(...)` on a rational: truncation toward zero. -/
def pyInt (q : ℚ) : ℤ := q.num.tdiv q.den

/-- `np.sum` over a list of rationals. -/
def listSum (l : List ℚ) : ℚ := l.foldl (· + ·) 0

/-- `np.mean` over a list of rationals (empty list abstracted to 0). -/
def listMean (l : List ℚ) : ℚ := listSum l / l.length

/-- Maximum of a list of rationals (numpy max semantics on nonempty input). -/
def listMax (l : List ℚ) : ℚ := l.foldl max (l.headD 0)

/-- Minimum of a list of rationals (numpy min semantics on nonempty input). -/
def listMin (l : List ℚ) : ℚ := l.foldl min (l.headD 0)

/-- Substring containment on strings, used to state what an error
message "names". -/
abbrev containsStr (needle hay : String) : Prop :=
  needle.toList <:+: hay.toList

/-- Python `a / b` on integers: true division, raising
`ZeroDivisionError` on a zero denominator. -/
def pyDivNat (a b : ℕ) : Except String ℚ :=
  if b = 0 then .error "division by zero" else .ok ((a : ℚ) / (b : ℚ))

/- ----------------------------------------------------------------
Input rows (the positional row contracts of each tool).
---------------------------------------------------------------- -/

/-- A row of `historical_traffic`: [timestamp, flow_rate, speed, occupancy]. -/
structure TrafficRow where
  timestamp : ℚ
  flow_rate : ℚ
  speed : ℚ
  occupancy : ℚ
deriving DecidableEq, Inhabited

/-- A row of `historical_aqi`: [timestamp, aqi_value, pm25, pm10, o3, no2]. -/
structure AqiRow where
  timestamp : ℚ
  aqi_value : ℚ
  pm25 : ℚ
  pm10 : ℚ
  o3 : ℚ
  no2 : ℚ
deriving DecidableEq, Inhabited

/-- A row of `historical_data`: [year, population, built_area, gdp, employment_rate]. -/
structure GrowthRow where
  year : ℚ
  population : ℚ
  built_area : ℚ
  gdp : ℚ
  employment_rate : ℚ
deriving DecidableEq, Inhabited

/-- A row of `demand_points`: [lat, lon, demand_weight]. -/
structure DemandPoint where
  lat : ℚ
  lon : ℚ
  weight : ℚ
deriving DecidableEq, Inhabited

/-- A row of `crime_incidents`: [lat, lon, timestamp, crime_type, severity]. -/
structure CrimeRow where
  lat : ℚ
  lon : ℚ
  timestamp : ℚ
  crime_type : String
  severity : ℤ
deriving DecidableEq, Inhabited

/-- A row of `historical_demand`: [timestamp, demand_mw, temperature, day_type]. -/
structure EnergyRow where
  timestamp : ℚ
  demand_mw : ℚ
  temperature : ℚ
  day_type : String
deriving DecidableEq, Inhabited

/-- A row of `parcels`: [lat, lon, current_use, size_sqm, value]. -/
structure Parcel where
  lat : ℚ
  lon : ℚ
  current_use : String
  size_sqm : ℚ
  value : ℚ
deriving DecidableEq, Inhabited

/-- The `weather_conditions` object of the traffic tool. -/
structure Weather where
  temperature : Option ℚ := none
  precipitation : Option ℚ := none
  visibility : Option ℚ := none
deriving DecidableEq, Inhabited

/-- The `constraints` object of the transit tool. -/
structure Constraints where
  max_distance : Option ℚ := none
  min_demand : Option ℚ := none
deriving DecidableEq, Inhabited

/-- The `development_goals` object of the land-use tool. -/
structure DevelopmentGoals where
  housing_units : Option ℚ := none
  jobs : Option ℚ := none
  green_space_sqm : Option ℚ := none
deriving DecidableEq, Inhabited

/-- The `zoning_rules` object of the land-use tool (read but never used). -/
structure ZoningRules where
  residential : Option ℚ := none
  commercial : Option ℚ := none
  industrial : Option ℚ := none
  green : Option ℚ := none
deriving DecidableEq, Inhabited

/-- The `arguments` dictionary of a tool call: one optional field per
key that some kernel reads with `data.get(...)`. -/
structure Args where
  historical_traffic : Option (List TrafficRow) := none
  weather_conditions : Option Weather := none
  prediction_horizon : Option ℕ := none
  historical_aqi : Option (List AqiRow) := none
  forecast_days : Option ℕ := none
  historical_data : Option (List GrowthRow) := none
  projection_years : Option ℕ := none
  demand_points : Option (List DemandPoint) := none
  existing_stops : Option (List (ℚ × ℚ × ℚ)) := none
  constraints : Option Constraints := none
  crime_incidents : Option (List CrimeRow) := none
  contamination : Option ℚ := none
  historical_demand : Option (List EnergyRow) := none
  forecast_horizon : Option ℕ := none
  parcels : Option (List Parcel) := none
  zoning_rules : Option ZoningRules := none
  development_goals : Option DevelopmentGoals := none
deriving Inhabited

/-- The empty argument dictionary. -/
def emptyArgs : Args := {}

/- ----------------------------------------------------------------
Abstract fitted models returned by the external ML libraries.
---------------------------------------------------------------- -/

/-- A fitted `RandomForestRegressor`: its predict method, its
`feature_importances_` (three features), and its in-sample `score`. -/
structure RFModel where
  predict : ℚ × ℚ × ℚ → ℚ
  importances : ℚ × ℚ × ℚ
  score : ℚ

/-- A fitted ARIMA model: forecast, AIC, BIC, residuals. -/
structure ArimaModel where
  forecast : ℕ → List ℚ
  aic : ℚ
  bic : ℚ
  resid : List ℚ

/-- A fitted `Ridge` regression on four features. -/
structure RidgeModel where
  predict : ℚ × ℚ × ℚ × ℚ → ℚ
  coef : ℚ × ℚ × ℚ × ℚ
  score : ℚ

/-- A fitted `IsolationForest`: per-sample labels from `fit_predict`
(−1 = anomaly) and the `score_samples` function. -/
structure IsoModel where
  preds : List ℤ
  score : ℚ × ℚ × ℚ → ℚ

/-- The external ML library surface (scikit-learn, statsmodels, numpy).
Each fallible operation returns `Except String _`: the error case models
the library raising an exception with the given message.  Seeded
constructors take the integer `random_state` value, reflecting that a
fixed seed makes the fit a function of the data alone. -/
structure Backends where
  rfFit : ℕ → ℕ → List (ℚ × ℚ × ℚ) → List ℚ → Except String RFModel
  arimaFit : ℕ × ℕ × ℕ → List ℚ → Except String ArimaModel
  ridgeFit : ℚ → List (ℚ × ℚ × ℚ × ℚ) → List ℚ → Except String RidgeModel
  dbscanWeighted : ℚ → ℕ → List (ℚ × ℚ) → List ℚ → Except String (List ℤ)
  dbscan : ℚ → ℕ → List (ℚ × ℚ) → Except String (List ℤ)
  isoFit : ℚ → ℕ → List (ℚ × ℚ × ℚ) → Except String IsoModel
  seasonalDecompose : List ℚ → ℕ → Except String (List ℚ)
  corrcoef : List ℚ → List ℚ → ℚ
  polyfitSlope : List ℚ → ℚ
  npStd : List ℚ → ℚ
  cosDeg : ℚ → ℚ

/- ----------------------------------------------------------------
Derived-metric helpers (the small deterministic functions).
---------------------------------------------------------------- -/

/-- `_calculate_congestion_level`. -/
def congestionLevel (flow_rate : ℚ) : String :=
  if flow_rate < 30 then "low"
  else if flow_rate < 60 then "moderate"
  else if flow_rate < 80 then "high"
  else "severe"

/-- `_get_aqi_category`. -/
def aqiCategory (aqi : ℚ) : String :=
  if aqi ≤ 50 then "Good"
  else if aqi ≤ 100 then "Moderate"
  else if aqi ≤ 150 then "Unhealthy for Sensitive Groups"
  else if aqi ≤ 200 then "Unhealthy"
  else if aqi ≤ 300 then "Very Unhealthy"
  else "Hazardous"

/-- `_get_aqi_recommendation`. -/
def aqiRecommendation (aqi : ℚ) : String :=
  if aqi ≤ 50 then "Air quality is satisfactory"
  else if aqi ≤ 100 then "Unusually sensitive people should consider limiting prolonged outdoor exertion"
  else if aqi ≤ 150 then "People with respiratory or heart conditions should limit prolonged outdoor exertion"
  else if aqi ≤ 200 then "Everyone should avoid prolonged outdoor exertion"
  else if aqi ≤ 300 then "Everyone should avoid all outdoor exertion"
  else "Everyone should remain indoors"

/-- `_calculate_infrastructure_needs` output. -/
structure InfraNeeds where
  schools_needed : ℤ
  hospitals_needed : ℤ
  parks_needed : ℤ
  water_capacity_mld : ℤ
deriving DecidableEq, Inhabited

/-- `_calculate_infrastructure_needs`: each quantity is `int(...)` of a
ratio of the predicted population. -/
def infraNeeds (population : ℚ) : InfraNeeds :=
  { schools_needed := pyInt (population / 5000)
    hospitals_needed := pyInt (population / 50000)
    parks_needed := pyInt (population / 10000)
    water_capacity_mld := pyInt (population * 0.15 / 1000) }

/-- `_calculate_coverage_area`: bounding-box area in km², with the
longitude span cosine-corrected at the mean latitude. -/
def coverageArea (B : Backends) (points : List (ℚ × ℚ)) : ℚ :=
  if points.length < 3 then 0
  else
    let lats := points.map (·.1)
    let lons := points.map (·.2)
    let latRange := (listMax lats - listMin lats) * 111
    let lonRange := (listMax lons - listMin lons) * 111 * B.cosDeg (listMean lats)
    latRange * lonRange

/-- `_suggest_frequency`. -/
def suggestFrequency (demand : ℚ) : String :=
  if demand < 100 then "Every 30 minutes"
  else if demand < 500 then "Every 15 minutes"
  else if demand < 1000 then "Every 10 minutes"
  else "Every 5 minutes"

/-- `_calculate_route_efficiency`. -/
def routeEfficiency (optimalLen existingLen : ℕ) : ℚ :=
  if existingLen = 0 then 100
  else min 100 ((optimalLen : ℚ) / (max existingLen 1 : ℕ) * 100)

/-- `_calculate_risk_level`. -/
def riskLevel (anomaly_score : ℚ) : String :=
  if anomaly_score < -0.5 then "high"
  else if anomaly_score < -0.3 then "medium"
  else "low"

/-- `_identify_peak_hours`. -/
def peakHours (daily_demand : ℚ) : List String :=
  if daily_demand > 1000 then ["07:00-09:00", "17:00-20:00"]
  else ["08:00-09:00", "18:00-19:00"]

/-- The raw target-ratio dictionary of `classify_land_use`
(residential, commercial, green, industrial): 50 m² per housing unit,
20 m² per job, the explicit green-space target, fixed 10% industrial. -/
def optimalDistributionRaw (housing_units jobs green_space_sqm total_area : ℚ) :
    ℚ × ℚ × ℚ × ℚ :=
  (housing_units * 50 / total_area,
   jobs * 20 / total_area,
   green_space_sqm / total_area,
   0.1)

/-- The normalization step of `classify_land_use`: divide every ratio by
the sum of all four. -/
def normalizeDistribution (d : ℚ × ℚ × ℚ × ℚ) : ℚ × ℚ × ℚ × ℚ :=
  let total_ratio := d.1 + d.2.1 + d.2.2.1 + d.2.2.2
  (d.1 / total_ratio, d.2.1 / total_ratio, d.2.2.1 / total_ratio, d.2.2.2 / total_ratio)

/-- Distinct keys of a list in first-appearance order. -/
def distinctKeys : List String → List String
  | [] => []
  | a :: l => a :: distinctKeys (l.filter (fun b => b != a))
termination_by l => l.length
decreasing_by
  simp only [List.length_cons]
  exact Nat.lt_succ_of_le (List.length_filter_le _ _)

/-- `pd.Series(...).value_counts().to_dict()` on the current land uses:
each distinct use with its occurrence count. -/
def useCounts (uses : List String) : List (String × ℕ) :=
  (distinctKeys uses).map (fun u => (u, uses.count u))

/-- Dictionary lookup with default 0: `counts.get(key, 0)`. -/
def lookupCount (counts : List (String × ℕ)) (key : String) : ℕ :=
  ((counts.find? (fun p => p.1 == key)).map (·.2)).getD 0

/- ----------------------------------------------------------------
Per-tool success payloads.
---------------------------------------------------------------- -/

/-- One entry of the traffic `predictions` list. -/
structure TrafficPrediction where
  hour_ahead : ℕ
  predicted_flow : ℚ
  congestion_level : String
deriving DecidableEq, Inhabited

/-- The success payload of `predict_traffic_flow`. -/
structure TrafficOut where
  model : String
  predictions : List TrafficPrediction
  feature_importance : ℚ × ℚ × ℚ
  confidence_score : ℚ
deriving DecidableEq, Inhabited

/-- One entry of the AQI `forecasts` list. -/
structure AqiForecast where
  day : ℕ
  predicted_aqi : ℚ
  category : String
  health_recommendation : String
deriving DecidableEq, Inhabited

/-- The `model_metrics` of the AQI tool. -/
structure AqiMetrics where
  aic : ℚ
  bic : ℚ
  mae : ℚ
deriving DecidableEq, Inhabited

/-- The success payload of `forecast_air_quality`. -/
structure AqiOut where
  model : String
  forecasts : List AqiForecast
  model_metrics : AqiMetrics
deriving DecidableEq, Inhabited

/-- One entry of the urban-growth `projections` list. -/
structure GrowthProjection where
  year : ℤ
  predicted_population : ℤ
  growth_rate : ℚ
  infrastructure_needs : InfraNeeds
deriving DecidableEq, Inhabited

/-- The success payload of `predict_urban_growth`. -/
structure GrowthOut where
  model : String
  projections : List GrowthProjection
  model_coefficients : ℚ × ℚ × ℚ × ℚ
  r_squared : ℚ
deriving DecidableEq, Inhabited

/-- One entry of the transit `optimal_stops` list. -/
structure TransitStop where
  cluster_id : ℤ
  location : ℚ × ℚ
  expected_demand : ℚ
  coverage_area : ℚ
  suggested_frequency : String
deriving DecidableEq, Inhabited

/-- The `route_metrics` of the transit tool. -/
structure RouteMetrics where
  total_clusters : ℕ
  unclustered_points : ℕ
  average_cluster_size : ℚ
  coverage_efficiency : ℚ
deriving DecidableEq, Inhabited

/-- The success payload of `optimize_transit_routes`. -/
structure TransitOut where
  model : String
  optimal_stops : List TransitStop
  route_metrics : RouteMetrics
  recommendations : List String
deriving DecidableEq, Inhabited

/-- One entry of the crime `hotspots` list. -/
structure CrimeHotspot where
  location : ℚ × ℚ
  anomaly_score : ℚ
  incident_type : String
  severity : ℤ
  risk_level : String
deriving DecidableEq, Inhabited

/-- The `statistics` of the crime tool. -/
structure CrimeStatistics where
  total_incidents : ℕ
  hotspots_detected : ℕ
  anomaly_rate : ℚ
  high_risk_areas : ℕ
deriving DecidableEq, Inhabited

/-- The success payload of `detect_crime_hotspots`. -/
structure CrimeOut where
  model : String
  hotspots : List CrimeHotspot
  statistics : CrimeStatistics
  prevention_strategies : List String
deriving DecidableEq, Inhabited

/-- One entry of the energy `forecasts` list. -/
structure EnergyForecast where
  day : ℕ
  predicted_demand_mw : ℚ
  peak_hours : List String
  recommended_capacity : ℚ
deriving DecidableEq, Inhabited

/-- The `demand_patterns` of the energy tool. -/
structure DemandPatterns where
  trend_direction : String
  trend_rate_mw_per_day : ℚ
  temperature_sensitivity : ℚ
  weekly_seasonality_strength : ℚ
deriving DecidableEq, Inhabited

/-- The success payload of `forecast_energy_demand`. -/
structure EnergyOut where
  model : String
  forecasts : List EnergyForecast
  demand_patterns : DemandPatterns
  grid_recommendations : List String
deriving DecidableEq, Inhabited

/-- One conversion recommendation of the land-use tool. -/
structure LandConversion where
  convert_to : String
  parcels_needed : ℤ
  area_needed_sqm : ℚ
deriving DecidableEq, Inhabited

/-- The `metrics` of the land-use tool. -/
structure LandMetrics where
  total_area_sqm : ℚ
  average_parcel_size : ℚ
  land_value_per_sqm : ℚ
  sustainability_score : ℚ
deriving DecidableEq, Inhabited

/-- The success payload of `classify_land_use`: the current
distribution pairs each use with its parcel count and percentage; the
optimal distribution pairs each use with its target percentage. -/
structure LandOut where
  model : String
  current_distribution : List (String × ℕ × ℚ)
  optimal_distribution : List (String × ℚ)
  conversion_recommendations : List LandConversion
  metrics : LandMetrics
  development_priorities : List String
deriving DecidableEq, Inhabited

/-- The structured result of one tool, tagged by tool. -/
inductive ToolPayload where
  | traffic (o : TrafficOut)
  | aqi (o : AqiOut)
  | growth (o : GrowthOut)
  | transit (o : TransitOut)
  | crime (o : CrimeOut)
  | energy (o : EnergyOut)
  | land (o : LandOut)
deriving DecidableEq

/-- The ModelResult envelope every kernel returns: a success payload or
a failure dictionary with an "error" message. -/
inductive Envelope where
  | failure (msg : String)
  | success (payload : ToolPayload)
deriving DecidableEq

/- ----------------------------------------------------------------
Recommendation-text helpers that consume output entries.
---------------------------------------------------------------- -/

/-- `_generate_transit_recommendations`. -/
def transitRecommendations (stops : List TransitStop) : List String :=
  (if stops.length > 20 then
    ["Consider implementing express routes for high-demand corridors"] else [])
  ++ (let high_demand := stops.filter (fun s => s.expected_demand > 500)
      if high_demand.length ≠ 0 then
        ["Prioritize " ++ toString high_demand.length ++ " high-demand stops for immediate implementation"]
      else [])
  ++ (let low_coverage := stops.filter (fun s => s.coverage_area < 1)
      if low_coverage.length ≠ 0 then
        ["Add feeder routes for " ++ toString low_coverage.length ++ " areas with limited coverage"]
      else [])

/-- `_generate_prevention_strategies`. -/
def preventionStrategies (hotspots : List CrimeHotspot) : List String :=
  (let high_risk := hotspots.filter (fun h => h.risk_level == "high")
   if high_risk.length ≠ 0 then
     ["Deploy additional patrols to " ++ toString high_risk.length ++ " high-risk areas"]
   else [])
  ++ (let violent := hotspots.filter (fun h => h.severity > 3)
      if violent.length ≠ 0 then
        ["Install CCTV cameras and improve lighting in violent crime hotspots"]
      else [])
  ++ ["Implement community policing programs in identified hotspot areas",
      "Coordinate with social services for intervention programs"]

/-- `_generate_grid_recommendations`. -/
def gridRecommendations (forecasts : List EnergyForecast) (temp_correlation : ℚ) : List String :=
  (let max_demand := listMax (forecasts.map (·.predicted_demand_mw))
   if max_demand > 1500 then
     ["Prepare reserve capacity for peak demand periods"] else [])
  ++ (if |temp_correlation| > 0.7 then
        ["Implement dynamic pricing based on temperature forecasts"] else [])
  ++ ["Consider demand response programs during peak hours",
      "Optimize renewable energy integration during low-demand periods"]

/-- The conversion-recommendation loop of `classify_land_use`: one
entry per target use whose target ratio exceeds the current ratio by
more than 10% relative. -/
def landConversions (counts : List (String × ℕ)) (optimal : ℚ × ℚ × ℚ × ℚ)
    (numParcels : ℕ) (total_area : ℚ) : List LandConversion :=
  [("residential", optimal.1), ("commercial", optimal.2.1),
   ("green", optimal.2.2.1), ("industrial", optimal.2.2.2)].filterMap
    (fun p =>
      let current_ratio : ℚ := (lookupCount counts p.1 : ℚ) / numParcels
      if p.2 > current_ratio * 1.1 then
        some { convert_to := p.1
               parcels_needed := pyInt ((p.2 - current_ratio) * numParcels)
               area_needed_sqm := (p.2 - current_ratio) * total_area }
      else none)

/-- `_calculate_sustainability_score`: 40% green ratio + 30% use
diversity + 30% spatial cluster diversity, clamped to [0, 100]. -/
def sustainabilityScore (B : Backends) (counts : List (String × ℕ))
    (coords : List (ℚ × ℚ)) : Except String ℚ := do
  let green_ratio : ℚ := (lookupCount counts "green" : ℚ) /
    (max (counts.foldl (fun acc p => acc + p.2) 0) 1 : ℕ)
  let diversity : ℚ := (counts.length : ℚ) / 4
  let clusters ← B.dbscan 0.01 3 coords
  let cluster_diversity : ℚ := (clusters.dedup.length : ℚ) / coords.length
  let score := green_ratio * 40 + diversity * 30 + cluster_diversity * 30
  return min 100 (max 0 score)

/-- `_generate_development_priorities`. -/
def developmentPriorities (conversions : List LandConversion) (green_goal : ℚ) : List String :=
  (if conversions.any (fun c => c.convert_to == "residential") then
    ["Priority 1: Increase residential zoning to meet housing targets"] else [])
  ++ (if green_goal > 0 then
        ["Priority 2: Preserve and expand green spaces for sustainability"] else [])
  ++ ["Priority 3: Ensure mixed-use development for walkable neighborhoods",
      "Priority 4: Create transit-oriented development zones"]

/- ----------------------------------------------------------------
Kernel bodies.  Each body is the code inside a kernel's try-block:
an explicit early return of a failure dictionary stays inside `.ok`,
while a raised exception is the `.error` case, to be converted by the
except-clause (`wrapKernel`).
---------------------------------------------------------------- -/

/-- The except-clause of every kernel: an exception `e` raised inside
the try-block becomes the failure dictionary
`{"error": "<label> failed: " + str(e)}`. -/
def wrapKernel (label : String) (r : Except String Envelope) : Envelope :=
  match r with
  | .ok env => env
  | .error e => .failure (label ++ " failed: " ++ e)

/-- Try-block of `predict_traffic_flow`. -/
def trafficBody (B : Backends) (data : Args) : Except String Envelope :=
  let historical := data.historical_traffic.getD []
  if historical.length < 10 then
    .ok (.failure "Insufficient historical data (need at least 10 data points)")
  else do
    let X := historical.map (fun r => (r.flow_rate, r.speed, r.occupancy))
    let y := historical.map (·.flow_rate)
    let weather := data.weather_conditions.getD {}
    let _weather_features :=
      (weather.temperature.getD 20, weather.precipitation.getD 0, weather.visibility.getD 10)
    let model ← B.rfFit 100 42 X y
    let horizon := data.prediction_horizon.getD 1
    let last_features := X.getLastD (0, 0, 0)
    let predictions := (List.range horizon).map (fun h =>
      let pred := model.predict last_features
      { hour_ahead := h + 1
        predicted_flow := pred
        congestion_level := congestionLevel pred : TrafficPrediction })
    return .success (.traffic
      { model := "Random Forest Traffic Predictor"
        predictions := predictions
        feature_importance := model.importances
        confidence_score := model.score })

/-- `predict_traffic_flow`. -/
def predict_traffic_flow (B : Backends) (data : Args) : Envelope :=
  wrapKernel "Traffic prediction" (trafficBody B data)

/-- Try-block of `forecast_air_quality`. -/
def aqiBody (B : Backends) (data : Args) : Except String Envelope :=
  let historical := data.historical_aqi.getD []
  if historical.length < 30 then
    .ok (.failure "Need at least 30 days of historical AQI data")
  else do
    let aqi_values := historical.map (·.aqi_value)
    let fitted_model ← B.arimaFit (2, 1, 2) aqi_values
    let forecast_days := data.forecast_days.getD 7
    let forecast := fitted_model.forecast forecast_days
    let recommendations := forecast.map aqiRecommendation
    return .success (.aqi
      { model := "ARIMA AQI Forecaster"
        forecasts := (forecast.zip recommendations).enum.map (fun p =>
          { day := p.1 + 1
            predicted_aqi := p.2.1
            category := aqiCategory p.2.1
            health_recommendation := p.2.2 : AqiForecast })
        model_metrics :=
          { aic := fitted_model.aic
            bic := fitted_model.bic
            mae := listMean (fitted_model.resid.map (fun r => |r|)) } })

/-- `forecast_air_quality`. -/
def forecast_air_quality (B : Backends) (data : Args) : Envelope :=
  wrapKernel "AQI forecasting" (aqiBody B data)

/-- One projection entry of the urban-growth loop, built from the
feature row (zero-based year, built area, GDP, employment) reached at
step `k`, with `last_year` and `last_pop` the final historical year and
population. -/
def mkGrowthProjection (M : RidgeModel) (last_year last_pop : ℚ) (k : ℕ)
    (row : ℚ × ℚ × ℚ × ℚ) : GrowthProjection :=
  let pop_prediction := M.predict row
  { year := pyInt (last_year + k)
    predicted_population := pyInt pop_prediction
    growth_rate := (pop_prediction / last_pop - 1) * 100
    infrastructure_needs := infraNeeds pop_prediction }

/-- One iteration of the urban-growth loop on the mutable feature row:
increment the zero-based year, compound built area by 1.02 and GDP by
1.03. -/
def growthStep (row : ℚ × ℚ × ℚ × ℚ) : ℚ × ℚ × ℚ × ℚ :=
  (row.1 + 1, row.2.1 * 1.02, row.2.2.1 * 1.03, row.2.2.2)

/-- The projection loop of `predict_urban_growth`: at each of `n`
iterations the row is stepped first, then the stepped row is fed to the
model; `k` is the 1-based index of the next projection. -/
def growthLoop (M : RidgeModel) (last_year last_pop : ℚ) :
    (ℚ × ℚ × ℚ × ℚ) → ℕ → ℕ → List GrowthProjection
  | _, _, 0 => []
  | row, k, n + 1 =>
    let row' := growthStep row
    mkGrowthProjection M last_year last_pop k row' ::
      growthLoop M last_year last_pop row' (k + 1) n

/-- Try-block of `predict_urban_growth`. -/
def growthBody (B : Backends) (data : Args) : Except String Envelope :=
  let historical := data.historical_data.getD []
  if historical.length < 5 then
    .ok (.failure "Need at least 5 years of historical data")
  else do
    let first_year := (historical.headD default).year
    let X := historical.map (fun r =>
      (r.year - first_year, r.built_area, r.gdp, r.employment_rate))
    let y := historical.map (·.population)
    let model ← B.ridgeFit 1 X y
    let projection_years := data.projection_years.getD 5
    let last_row := X.getLastD (0, 0, 0, 0)
    let last_hist := historical.getLastD default
    let projections :=
      growthLoop model last_hist.year last_hist.population last_row 1 projection_years
    return .success (.growth
      { model := "Ridge Regression Urban Growth Predictor"
        projections := projections
        model_coefficients := model.coef
        r_squared := model.score })

/-- `predict_urban_growth`. -/
def predict_urban_growth (B : Backends) (data : Args) : Envelope :=
  wrapKernel "Urban growth prediction" (growthBody B data)

/-- `np.average(points, axis=0, weights=weights)`: the weighted
centroid; numpy raises when the weights sum to zero. -/
def npAverage (points : List (ℚ × ℚ)) (weights : List ℚ) : Except String (ℚ × ℚ) :=
  let W := listSum weights
  if W = 0 then .error "Weights sum to zero"
  else
    .ok (listSum ((points.zip weights).map (fun p => p.1.1 * p.2)) / W,
         listSum ((points.zip weights).map (fun p => p.1.2 * p.2)) / W)

/-- The per-cluster loop of `optimize_transit_routes`: one candidate
stop per non-noise cluster (weighted centroid, total demand, coverage
area, frequency suggestion); a raise inside any iteration propagates. -/
def transitStops (B : Backends) (coords : List (ℚ × ℚ)) (weights : List ℚ)
    (clusters : List ℤ) : List ℤ → Except String (List TransitStop)
  | [] => .ok []
  | cluster_id :: rest =>
    let cluster_points := ((coords.zip clusters).filter (fun p => p.2 == cluster_id)).map (·.1)
    let cluster_weights := ((weights.zip clusters).filter (fun p => p.2 == cluster_id)).map (·.1)
    match npAverage cluster_points cluster_weights with
    | .error e => .error e
    | .ok centroid =>
      let total_demand := listSum cluster_weights
      match transitStops B coords weights clusters rest with
      | .error e => .error e
      | .ok stops =>
        .ok ({ cluster_id := cluster_id
               location := centroid
               expected_demand := total_demand
               coverage_area := coverageArea B cluster_points
               suggested_frequency := suggestFrequency total_demand : TransitStop } :: stops)

/-- Try-block of `optimize_transit_routes`. -/
def transitBody (B : Backends) (data : Args) : Except String Envelope :=
  let demand_points := data.demand_points.getD []
  if demand_points.length < 10 then
    .ok (.failure "Need at least 10 demand points")
  else
    let coords := demand_points.map (fun r => (r.lat, r.lon))
    let weights := demand_points.map (·.weight)
    let constraints := data.constraints.getD {}
    let eps := constraints.max_distance.getD 0.01
    let min_samples := max 3 (pyInt ((coords.length : ℚ) * 0.05)).toNat
    match B.dbscanWeighted eps min_samples coords weights with
    | .error e => .error e
    | .ok clusters =>
      let unique_clusters := (clusters.filter (fun l => l != -1)).dedup
      match transitStops B coords weights clusters unique_clusters with
      | .error e => .error e
      | .ok optimal_stops =>
        let existing_stops := data.existing_stops.getD []
        let efficiency := routeEfficiency optimal_stops.length existing_stops.length
        match pyDivNat (clusters.filter (fun l => l != -1)).length unique_clusters.length with
        | .error e => .error e
        | .ok average_cluster_size =>
          .ok (.success (.transit
            { model := "DBSCAN Transit Route Optimizer"
              optimal_stops := optimal_stops
              route_metrics :=
                { total_clusters := unique_clusters.length
                  unclustered_points := (clusters.filter (fun l => l == -1)).length
                  average_cluster_size := average_cluster_size
                  coverage_efficiency := efficiency }
              recommendations := transitRecommendations optimal_stops }))

/-- `optimize_transit_routes`. -/
def optimize_transit_routes (B : Backends) (data : Args) : Envelope :=
  wrapKernel "Transit optimization" (transitBody B data)

/-- Try-block of `detect_crime_hotspots`. -/
def crimeBody (B : Backends) (data : Args) : Except String Envelope :=
  let incidents := data.crime_incidents.getD []
  if incidents.length < 50 then
    .ok (.failure "Need at least 50 crime incidents for analysis")
  else
    let coords := incidents.map (fun r => (r.lat, r.lon))
    let time_features := (List.range incidents.length).map (fun i => (i : ℚ))
    let features := (coords.zip time_features).map (fun p => (p.1.1, p.1.2, p.2))
    let contamination := data.contamination.getD 0.1
    match B.isoFit contamination 42 features with
    | .error e => .error e
    | .ok model =>
    let hotspot_indices :=
      (List.range model.preds.length).filter (fun i => model.preds.getD i 0 == -1)
    let hotspots := hotspot_indices.map (fun idx =>
      let r := incidents.getD idx default
      let f := features.getD idx (0, 0, 0)
      { location := (r.lat, r.lon)
        anomaly_score := model.score f
        incident_type := r.crime_type
        severity := r.severity
        risk_level := riskLevel (model.score f) : CrimeHotspot })
    let strategies := preventionStrategies hotspots
    .ok (.success (.crime
      { model := "Isolation Forest Crime Hotspot Detector"
        hotspots := hotspots.take 20
        statistics :=
          { total_incidents := incidents.length
            hotspots_detected := hotspots.length
            anomaly_rate := (hotspots.length : ℚ) / (incidents.length : ℚ)
            high_risk_areas := (hotspots.filter (fun h => h.risk_level == "high")).length }
        prevention_strategies := strategies }))

/-- `detect_crime_hotspots`. -/
def detect_crime_hotspots (B : Backends) (data : Args) : Envelope :=
  wrapKernel "Crime hotspot detection" (crimeBody B data)

/-- Try-block of `forecast_energy_demand`. -/
def energyBody (B : Backends) (data : Args) : Except String Envelope :=
  let historical := data.historical_demand.getD []
  if historical.length < 90 then
    .ok (.failure "Need at least 90 days of historical demand data")
  else do
    let demand_values := historical.map (·.demand_mw)
    let temperatures := historical.map (·.temperature)
    let seasonal ← B.seasonalDecompose demand_values 7
    let temp_correlation := B.corrcoef demand_values temperatures
    let forecast_horizon := data.forecast_horizon.getD 7
    let trend_slope := B.polyfitSlope demand_values
    let last_value := demand_values.getLastD 0
    let forecasts := (List.range forecast_horizon).map (fun (day : ℕ) =>
      let base_forecast := last_value + trend_slope * (day : ℚ)
      let seasonal_adj := seasonal.getD (day % 7) 0
      let forecast_value := base_forecast + seasonal_adj
      { day := day + 1
        predicted_demand_mw := forecast_value
        peak_hours := peakHours forecast_value
        recommended_capacity := forecast_value * 1.15 : EnergyForecast })
    let recommendations := gridRecommendations forecasts temp_correlation
    return .success (.energy
      { model := "Seasonal Decomposition Energy Forecaster"
        forecasts := forecasts
        demand_patterns :=
          { trend_direction := if trend_slope > 0 then "increasing" else "decreasing"
            trend_rate_mw_per_day := trend_slope
            temperature_sensitivity := temp_correlation
            weekly_seasonality_strength := B.npStd seasonal }
        grid_recommendations := recommendations })

/-- `forecast_energy_demand`. -/
def forecast_energy_demand (B : Backends) (data : Args) : Envelope :=
  wrapKernel "Energy demand forecasting" (energyBody B data)

/-- Try-block of `classify_land_use`. -/
def landBody (B : Backends) (data : Args) : Except String Envelope :=
  let parcels := data.parcels.getD []
  if parcels.length < 20 then
    .ok (.failure "Need at least 20 land parcels for analysis")
  else do
    let coords := parcels.map (fun r => (r.lat, r.lon))
    let sizes := parcels.map (·.size_sqm)
    let values := parcels.map (·.value)
    let current_uses := parcels.map (·.current_use)
    let use_distribution := useCounts current_uses
    let goals := data.development_goals.getD {}
    let _zoning := data.zoning_rules.getD {}
    let total_area := listSum sizes
    let optimal_distribution := normalizeDistribution
      (optimalDistributionRaw (goals.housing_units.getD 1000) (goals.jobs.getD 500)
        (goals.green_space_sqm.getD 10000) total_area)
    let conversions :=
      landConversions use_distribution optimal_distribution parcels.length total_area
    let sustainability_score ← sustainabilityScore B use_distribution coords
    return .success (.land
      { model := "Land Use Classifier and Optimizer"
        current_distribution := use_distribution.map (fun p =>
          (p.1, p.2, (p.2 : ℚ) / (parcels.length : ℚ) * 100))
        optimal_distribution :=
          [("residential", optimal_distribution.1 * 100),
           ("commercial", optimal_distribution.2.1 * 100),
           ("green", optimal_distribution.2.2.1 * 100),
           ("industrial", optimal_distribution.2.2.2 * 100)]
        conversion_recommendations := conversions
        metrics :=
          { total_area_sqm := total_area
            average_parcel_size := listMean sizes
            land_value_per_sqm := listSum values / total_area
            sustainability_score := sustainability_score }
        development_priorities :=
          developmentPriorities conversions (goals.green_space_sqm.getD 0) })

/-- `classify_land_use`. -/
def classify_land_use (B : Backends) (data : Args) : Envelope :=
  wrapKernel "Land use classification" (landBody B data)

/- ----------------------------------------------------------------
Tool identifiers, registry and dispatcher.
---------------------------------------------------------------- -/

/-- The seven tools. -/
inductive ToolId where
  | traffic | aqi | growth | transit | crime | energy | land
deriving DecidableEq

/-- The try-block of the kernel serving a tool. -/
def kernelBody (t : ToolId) (B : Backends) (data : Args) : Except String Envelope :=
  match t with
  | .traffic => trafficBody B data
  | .aqi => aqiBody B data
  | .growth => growthBody B data
  | .transit => transitBody B data
  | .crime => crimeBody B data
  | .energy => energyBody B data
  | .land => landBody B data

/-- The label each kernel's except-clause puts in front of " failed: ". -/
def failLabel : ToolId → String
  | .traffic => "Traffic prediction"
  | .aqi => "AQI forecasting"
  | .growth => "Urban growth prediction"
  | .transit => "Transit optimization"
  | .crime => "Crime hotspot detection"
  | .energy => "Energy demand forecasting"
  | .land => "Land use classification"

/-- The kernel serving a tool. -/
def runKernel (t : ToolId) (B : Backends) (data : Args) : Envelope :=
  match t with
  | .traffic => predict_traffic_flow B data
  | .aqi => forecast_air_quality B data
  | .growth => predict_urban_growth B data
  | .transit => optimize_transit_routes B data
  | .crime => detect_crime_hotspots B data
  | .energy => forecast_energy_demand B data
  | .land => classify_land_use B data

/-- The documented minimum number of primary rows of each tool. -/
def minRows : ToolId → ℕ
  | .traffic => 10
  | .aqi => 30
  | .growth => 5
  | .transit => 10
  | .crime => 50
  | .energy => 90
  | .land => 20

/-- The length of a tool's primary row array in the given arguments. -/
def primaryLen (t : ToolId) (data : Args) : ℕ :=
  match t with
  | .traffic => (data.historical_traffic.getD []).length
  | .aqi => (data.historical_aqi.getD []).length
  | .growth => (data.historical_data.getD []).length
  | .transit => (data.demand_points.getD []).length
  | .crime => (data.crime_incidents.getD []).length
  | .energy => (data.historical_demand.getD []).length
  | .land => (data.parcels.getD []).length

/-- The insufficient-data message of each tool. -/
def shortMsg : ToolId → String
  | .traffic => "Insufficient historical data (need at least 10 data points)"
  | .aqi => "Need at least 30 days of historical AQI data"
  | .growth => "Need at least 5 years of historical data"
  | .transit => "Need at least 10 demand points"
  | .crime => "Need at least 50 crime incidents for analysis"
  | .energy => "Need at least 90 days of historical demand data"
  | .land => "Need at least 20 land parcels for analysis"

/-- The registered tool names, in listing order. -/
def registeredTools : List String :=
  ["predict_traffic_flow", "forecast_air_quality", "predict_urban_growth",
   "optimize_transit_routes", "detect_crime_hotspots", "forecast_energy_demand",
   "classify_land_use"]

/-- A model object that could sit in the `self.models` registry. -/
inductive FittedModel where
  | rf (m : RFModel)
  | arima (m : ArimaModel)
  | ridge (m : RidgeModel)
  | iso (m : IsoModel)

/-- The `self.models` registry: a name-to-slot dictionary. -/
abbrev Registry := List (String × Option FittedModel)

/-- The abstract state of the process-global numpy RNG. -/
abbrev RngSt := ℕ

/-- `_initialize_models`: every slot starts as `None`. -/
def initModels : Registry :=
  [("traffic_predictor", none), ("aqi_forecaster", none), ("growth_predictor", none),
   ("transit_optimizer", none), ("hotspot_detector", none), ("demand_forecaster", none),
   ("land_use_classifier", none)]

/-- `CityPlanningMCPServer.handle_call_tool`: route the name through the
if/elif chain, passing `arguments or {}` to the kernel; an unknown name
yields the `{"error": "Unknown tool: <name>"}` payload.  The registry
and RNG state are threaded explicitly. -/
def handle_call_tool (B : Backends) (models : Registry) (g : RngSt)
    (name : String) (arguments : Option Args) : Envelope × Registry × RngSt :=
  let args := arguments.getD emptyArgs
  let result :=
    if name = "predict_traffic_flow" then predict_traffic_flow B args
    else if name = "forecast_air_quality" then forecast_air_quality B args
    else if name = "predict_urban_growth" then predict_urban_growth B args
    else if name = "optimize_transit_routes" then optimize_transit_routes B args
    else if name = "detect_crime_hotspots" then detect_crime_hotspots B args
    else if name = "forecast_energy_demand" then forecast_energy_demand B args
    else if name = "classify_land_use" then classify_land_use B args
    else .failure ("Unknown tool: " ++ name)
  (result, models, g)

/-- `json.dumps({"error": msg}, indent=2)`: the serialized form of a
failure envelope. -/
def dumpsError (msg : String) : String :=
  "\x7b\n  \"error\": \"" ++ msg ++ "\"\n\x7d"

/-- A sequence of tool invocations run against the server state. -/
def runCalls (B : Backends) : Registry × RngSt → List (String × Option Args) → Registry × RngSt
  | st, [] => st
  | st, c :: cs => runCalls B (handle_call_tool B st.1 st.2 c.1 c.2).2 cs

/- ----------------------------------------------------------------
Concrete library instantiations and inputs used to witness the
theorems on explicit data.
---------------------------------------------------------------- -/

/-- A trivial instantiation of the library surface: every fit succeeds
and returns a constant model. -/
def trivB : Backends :=
  { rfFit := fun _ _ _ _ => .ok ⟨fun _ => 0, (0, 0, 0), 0⟩
    arimaFit := fun _ _ => .ok ⟨fun n => List.replicate n 0, 0, 0, []⟩
    ridgeFit := fun _ _ _ => .ok ⟨fun _ => 0, (0, 0, 0, 0), 0⟩
    dbscanWeighted := fun _ _ coords _ => .ok (coords.map (fun _ => 0))
    dbscan := fun _ _ coords => .ok (coords.map (fun _ => 0))
    isoFit := fun _ _ feats => .ok ⟨feats.map (fun _ => 1), fun _ => 0⟩
    seasonalDecompose := fun _ _ => .ok []
    corrcoef := fun _ _ => 0
    polyfitSlope := fun _ => 0
    npStd := fun _ => 0
    cosDeg := fun _ => 1 }

/-- A library instantiation whose random-forest fit raises. -/
def rfRaisesB : Backends :=
  { trivB with rfFit := fun _ _ _ _ => .error "boom" }

/-- A library instantiation whose clustering labels every point noise. -/
def allNoiseB : Backends :=
  { trivB with dbscanWeighted := fun _ _ coords _ => .ok (coords.map (fun _ => -1)) }

/-- An isolation forest flagging all 50 samples anomalous. -/
def crimeWModel : IsoModel := ⟨List.replicate 50 (-1), fun _ => -1⟩

/-- A library instantiation whose isolation forest flags everything. -/
def allAnomB : Backends :=
  { trivB with isoFit := fun _ _ _ => .ok crimeWModel }

/-- Ten identical traffic rows. -/
def trafficArgs10 : Args :=
  { historical_traffic := some (List.replicate 10 ⟨0, 50, 40, 0.5⟩) }

/-- Ten identical demand points. -/
def transitArgs10 : Args :=
  { demand_points := some (List.replicate 10 ⟨0, 0, 1⟩) }

/-- Fifty identical crime incidents. -/
def crimeArgs50 : Args :=
  { crime_incidents := some (List.replicate 50 ⟨0, 0, 0, "theft", 1⟩) }

/-- A ridge model predicting a constant population of 12345. -/
def ridgeW : RidgeModel := ⟨fun _ => 12345, (0, 0, 0, 0), 0⟩

/- ----------------------------------------------------------------
Helper lemmas.
---------------------------------------------------------------- -/

/-- A string occurs in any extension of itself to the right. -/
theorem containsStr_append_left (a b : String) : containsStr a (a ++ b) := by
  show a.toList <:+: (a ++ b).toList
  have h : (a ++ b).toList = a.toList ++ b.toList := by
    simp [String.toList, String.data_append]
  rw [h]
  exact (List.prefix_append _ _).isInfix

/-- A string occurs in any extension of itself to the left. -/
theorem containsStr_append_right (a b : String) : containsStr b (a ++ b) := by
  show b.toList <:+: (a ++ b).toList
  have h : (a ++ b).toList = a.toList ++ b.toList := by
    simp [String.toList, String.data_append]
  rw [h]
  exact (List.suffix_append _ _).isInfix

/-- A string occurs in any two-sided extension of itself. -/
theorem containsStr_append_left3 (a b c : String) : containsStr a (a ++ b ++ c) := by
  show a.toList <:+: (a ++ b ++ c).toList
  have h : (a ++ b ++ c).toList = a.toList ++ (b.toList ++ c.toList) := by
    simp [String.toList, String.data_append]
  rw [h]
  exact (List.prefix_append _ _).isInfix

/-- Every kernel is its except-wrapper around its try-block. -/
theorem runKernel_eq_wrap (t : ToolId) (B : Backends) (data : Args) :
    runKernel t B data = wrapKernel (failLabel t) (kernelBody t B data) := by
  cases t <;> rfl

/-- Filtering a successor-mapped list counts shifted indices. -/
theorem length_filter_map_succ (p : ℕ → Bool) (l : List ℕ) :
    ((l.map Nat.succ).filter p).length = (l.filter (fun i => p (i + 1))).length := by
  induction l with
  | nil => rfl
  | cons a t ih =>
    by_cases h : p (a + 1) <;>
      simp [List.filter_cons, Nat.succ_eq_add_one, h, ih]

/-- Counting the in-range indices at which a list holds `v` is counting
the occurrences of `v`. -/
theorem range_getD_count (v : ℤ) (l : List ℤ) :
    ((List.range l.length).filter (fun i => l.getD i 0 == v)).length =
      l.countP (fun x => x == v) := by
  induction l with
  | nil => rfl
  | cons a t ih =>
    rw [List.length_cons, List.range_succ_eq_map, List.filter_cons]
    by_cases h : a = v
    · simp only [List.getD_cons_zero, h, beq_self_eq_true, if_pos, List.length_cons]
      rw [length_filter_map_succ]
      simp only [List.getD_cons_succ]
      rw [ih, List.countP_cons]
      simp [h]
    · have hb : (a == v) = false := by simp [h]
      simp only [List.getD_cons_zero, hb, Bool.false_eq_true, if_false]
      rw [length_filter_map_succ]
      simp only [List.getD_cons_succ]
      rw [ih, List.countP_cons]
      simp [hb]

/-- Closed form of the urban-growth feature-row iteration. -/
theorem growthStep_iterate (y b g e : ℚ) (k : ℕ) :
    growthStep^[k] (y, b, g, e) = (y + k, 1.02 ^ k * b, 1.03 ^ k * g, e) := by
  induction k with
  | zero => simp
  | succ n ih =>
    rw [Function.iterate_succ_apply', ih]
    simp only [growthStep, Prod.mk.injEq]
    exact ⟨by push_cast; ring, by ring, by ring, trivial⟩

/-- Indexing the urban-growth projection loop. -/
theorem growthLoop_getElem? (M : RidgeModel) (ly lp : ℚ) (n : ℕ) :
    ∀ (k j : ℕ) (row : ℚ × ℚ × ℚ × ℚ), k < n →
      (growthLoop M ly lp row j n)[k]? =
        some (mkGrowthProjection M ly lp (j + k) (growthStep^[k + 1] row)) := by
  induction n with
  | zero => intro k j row hk; omega
  | succ m ih =>
    intro k j row hk
    cases k with
    | zero => simp [growthLoop]
    | succ k' =>
      rw [show growthLoop M ly lp row j (m + 1) =
            mkGrowthProjection M ly lp j (growthStep row) ::
              growthLoop M ly lp (growthStep row) (j + 1) m from rfl]
      rw [List.getElem?_cons_succ]
      rw [ih k' (j + 1) (growthStep row) (by omega)]
      have h1 : j + 1 + k' = j + (k' + 1) := by omega
      have h2 : growthStep^[k' + 1 + 1] row = growthStep^[k' + 1] (growthStep row) :=
        Function.iterate_succ_apply growthStep (k' + 1) row
      rw [h1, ← h2]

/- ----------------------------------------------------------------
Claim theorems.
---------------------------------------------------------------- -/

/-- C1 (counterexample): the claim says every insufficient-data message
names the minimum AND the tool, but the traffic kernel's short-input
message "Insufficient historical data (need at least 10 data points)"
contains no reference to the traffic tool at all — neither "traffic"
nor "Traffic" nor the registered name "predict_traffic_flow". -/
theorem traffic_short_message_lacks_tool_name :
    runKernel ToolId.traffic trivB emptyArgs =
      .failure "Insufficient historical data (need at least 10 data points)" ∧
    ¬ containsStr "traffic" "Insufficient historical data (need at least 10 data points)" ∧
    ¬ containsStr "Traffic" "Insufficient historical data (need at least 10 data points)" ∧
    ¬ containsStr "predict_traffic_flow"
        "Insufficient historical data (need at least 10 data points)" :=
  ⟨rfl, by decide, by decide, by decide⟩

/-- C1 (amended): for every tool, a primary row array shorter than the
tool's documented minimum makes the kernel return a Failure envelope
(no exception crosses the kernel boundary — the result is a value), and
the message names the minimum; it does not always name the tool. -/
theorem insufficient_data_failure_names_minimum (t : ToolId) (B : Backends) (data : Args)
    (h : primaryLen t data < minRows t) :
    runKernel t B data = .failure (shortMsg t) ∧
    containsStr (toString (minRows t)) (shortMsg t) := by
  constructor
  · cases t <;>
      · simp only [primaryLen, minRows] at h
        simp only [runKernel, predict_traffic_flow, trafficBody, forecast_air_quality,
          aqiBody, predict_urban_growth, growthBody, optimize_transit_routes, transitBody,
          detect_crime_hotspots, crimeBody, forecast_energy_demand, energyBody,
          classify_land_use, landBody]
        rw [if_pos h]
        rfl
  · cases t <;> decide

/-- C1 (witness): the amended theorem at the traffic tool with an empty
argument dictionary (zero rows). -/
theorem insufficient_data_failure_names_minimum_witness :
    primaryLen ToolId.traffic emptyArgs < minRows ToolId.traffic ∧
    (runKernel ToolId.traffic trivB emptyArgs = .failure (shortMsg ToolId.traffic) ∧
      containsStr (toString (minRows ToolId.traffic)) (shortMsg ToolId.traffic)) :=
  ⟨by decide, insufficient_data_failure_names_minimum ToolId.traffic trivB emptyArgs (by decide)⟩

/-- C2: for every invocation whose tool name is not one of the seven
registered names, the dispatcher returns the
`{"error": "Unknown tool: <name>"}` payload, and (being a total
function) raises nothing to the transport layer. -/
theorem unknown_tool_failure (B : Backends) (models : Registry) (g : RngSt)
    (name : String) (arguments : Option Args) (h : name ∉ registeredTools) :
    (handle_call_tool B models g name arguments).1 =
      .failure ("Unknown tool: " ++ name) := by
  have h1 : ¬ name = "predict_traffic_flow" := fun e => h (by rw [e]; simp [registeredTools])
  have h2 : ¬ name = "forecast_air_quality" := fun e => h (by rw [e]; simp [registeredTools])
  have h3 : ¬ name = "predict_urban_growth" := fun e => h (by rw [e]; simp [registeredTools])
  have h4 : ¬ name = "optimize_transit_routes" := fun e => h (by rw [e]; simp [registeredTools])
  have h5 : ¬ name = "detect_crime_hotspots" := fun e => h (by rw [e]; simp [registeredTools])
  have h6 : ¬ name = "forecast_energy_demand" := fun e => h (by rw [e]; simp [registeredTools])
  have h7 : ¬ name = "classify_land_use" := fun e => h (by rw [e]; simp [registeredTools])
  simp only [handle_call_tool, if_neg h1, if_neg h2, if_neg h3, if_neg h4, if_neg h5,
    if_neg h6, if_neg h7]

/-- C2 (witness): `invoke("nonexistent_tool", {})` yields exactly
`{"error": "Unknown tool: nonexistent_tool"}`, whose indented JSON
serialization is the expected text. -/
theorem unknown_tool_failure_witness :
    "nonexistent_tool" ∉ registeredTools ∧
    (handle_call_tool trivB initModels 0 "nonexistent_tool" none).1 =
      .failure ("Unknown tool: " ++ "nonexistent_tool") ∧
    dumpsError ("Unknown tool: " ++ "nonexistent_tool") =
      "\x7b\n  \"error\": \"Unknown tool: nonexistent_tool\"\n\x7d" :=
  ⟨by decide, unknown_tool_failure trivB initModels 0 "nonexistent_tool" none (by decide), rfl⟩

/-- C3: whenever a kernel's try-block raises (feature construction,
fitting or prediction fails inside the library), the caller receives a
Failure envelope whose message is the tool's label followed by the
underlying error text, so the message contains both; no raw exception
crosses the kernel boundary. -/
theorem kernel_exception_wrapped (t : ToolId) (B : Backends) (data : Args) (e : String)
    (h : kernelBody t B data = .error e) :
    runKernel t B data = .failure (failLabel t ++ " failed: " ++ e) ∧
    containsStr (failLabel t) (failLabel t ++ " failed: " ++ e) ∧
    containsStr e (failLabel t ++ " failed: " ++ e) := by
  refine ⟨?_, containsStr_append_left3 _ _ _, containsStr_append_right _ _⟩
  rw [runKernel_eq_wrap, h]
  rfl

/-- C3 (witness): a random-forest fit that raises "boom" surfaces as
`{"error": "Traffic prediction failed: boom"}`. -/
theorem kernel_exception_wrapped_witness :
    kernelBody ToolId.traffic rfRaisesB trafficArgs10 = .error "boom" ∧
    (runKernel ToolId.traffic rfRaisesB trafficArgs10 =
        .failure (failLabel ToolId.traffic ++ " failed: " ++ "boom") ∧
      containsStr (failLabel ToolId.traffic) (failLabel ToolId.traffic ++ " failed: " ++ "boom") ∧
      containsStr "boom" (failLabel ToolId.traffic ++ " failed: " ++ "boom")) :=
  ⟨rfl, kernel_exception_wrapped ToolId.traffic rfRaisesB trafficArgs10 "boom" rfl⟩

/-- C4 (counterexample): the dispatcher performs no structural
validation.  Invoking the traffic tool with an argument dictionary
lacking the required `historical_traffic` key hands the arguments to
the kernel unchanged, and the reply is the kernel's own
insufficient-data failure, not a validation rejection. -/
theorem dispatcher_passes_arguments_unvalidated :
    (handle_call_tool trivB initModels 0 "predict_traffic_flow" (some emptyArgs)).1 =
      predict_traffic_flow trivB emptyArgs ∧
    predict_traffic_flow trivB emptyArgs =
      .failure "Insufficient historical data (need at least 10 data points)" :=
  ⟨rfl, rfl⟩

/-- C4 (amended): the dispatcher performs no schema validation at all:
for each registered name it forwards `arguments or {}` to the matching
kernel unchanged, and a missing required key is absorbed by the
kernel's own defaulting and minimum-rows check. -/
theorem dispatcher_forwards_args_to_kernels (B : Backends) (models : Registry) (g : RngSt)
    (arguments : Option Args) :
    (handle_call_tool B models g "predict_traffic_flow" arguments).1 =
      predict_traffic_flow B (arguments.getD emptyArgs) ∧
    (handle_call_tool B models g "forecast_air_quality" arguments).1 =
      forecast_air_quality B (arguments.getD emptyArgs) ∧
    (handle_call_tool B models g "predict_urban_growth" arguments).1 =
      predict_urban_growth B (arguments.getD emptyArgs) ∧
    (handle_call_tool B models g "optimize_transit_routes" arguments).1 =
      optimize_transit_routes B (arguments.getD emptyArgs) ∧
    (handle_call_tool B models g "detect_crime_hotspots" arguments).1 =
      detect_crime_hotspots B (arguments.getD emptyArgs) ∧
    (handle_call_tool B models g "forecast_energy_demand" arguments).1 =
      forecast_energy_demand B (arguments.getD emptyArgs) ∧
    (handle_call_tool B models g "classify_land_use" arguments).1 =
      classify_land_use B (arguments.getD emptyArgs) :=
  ⟨rfl, rfl, rfl, rfl, rfl, rfl, rfl⟩

/-- C7: because the traffic and crime kernels construct their models
with the fixed seed 42 rather than drawing from the process RNG, the
dispatcher's reply for them is independent of the ambient RNG state
(and registry), and two consecutive invocations with identical
arguments — the second starting from the state the first left behind —
return identical output. -/
theorem seeded_kernels_state_independent (B : Backends) (m m' : Registry) (g g' : RngSt)
    (arguments : Option Args) :
    ((handle_call_tool B m g "predict_traffic_flow" arguments).1 =
      (handle_call_tool B m' g' "predict_traffic_flow" arguments).1) ∧
    ((handle_call_tool B m g "detect_crime_hotspots" arguments).1 =
      (handle_call_tool B m' g' "detect_crime_hotspots" arguments).1) ∧
    ((handle_call_tool B
        (handle_call_tool B m g "predict_traffic_flow" arguments).2.1
        (handle_call_tool B m g "predict_traffic_flow" arguments).2.2
        "predict_traffic_flow" arguments).1 =
      (handle_call_tool B m g "predict_traffic_flow" arguments).1) ∧
    ((handle_call_tool B
        (handle_call_tool B m g "detect_crime_hotspots" arguments).2.1
        (handle_call_tool B m g "detect_crime_hotspots" arguments).2.2
        "detect_crime_hotspots" arguments).1 =
      (handle_call_tool B m g "detect_crime_hotspots" arguments).1) :=
  ⟨rfl, rfl, rfl, rfl⟩

/-- C8: the `self.models` registry is never mutated: it starts with
every slot `None`, every single dispatch returns it unchanged, and any
sequence of calls leaves it exactly as it began. -/
theorem models_registry_never_mutated :
    (∀ (B : Backends) (models : Registry) (g : RngSt) (name : String)
        (arguments : Option Args),
      (handle_call_tool B models g name arguments).2.1 = models) ∧
    (initModels.all (fun p => p.2.isNone) = true) ∧
    (∀ (B : Backends) (st : Registry × RngSt) (calls : List (String × Option Args)),
      (runCalls B st calls).1 = st.1) := by
  refine ⟨fun B m g n a => rfl, rfl, ?_⟩
  intro B st calls
  induction calls generalizing st with
  | nil => rfl
  | cons c cs ih => exact (ih _).trans rfl

/-- C5: in the urban-growth projection loop, the feature row fed to the
k-th prediction (k = 1, 2, ...) is the initial last row with the
zero-based year incremented k times, built area compounded by 1.02^k
and GDP by 1.03^k (stepped before predicting), and the projection's
infrastructure needs are the integer-truncated ratios
pop/5000, pop/50000, pop/10000 and pop·0.15/1000 of the predicted
population. -/
theorem growth_projection_features_and_needs (M : RidgeModel)
    (ly lp y0 b0 g0 e0 : ℚ) (n k : ℕ) (hk : k < n) :
    (growthLoop M ly lp (y0, b0, g0, e0) 1 n)[k]? =
      some (let row : ℚ × ℚ × ℚ × ℚ :=
              (y0 + ((k + 1 : ℕ) : ℚ), 1.02 ^ (k + 1) * b0, 1.03 ^ (k + 1) * g0, e0)
            { year := pyInt (ly + ((k + 1 : ℕ) : ℚ))
              predicted_population := pyInt (M.predict row)
              growth_rate := (M.predict row / lp - 1) * 100
              infrastructure_needs :=
                { schools_needed := pyInt (M.predict row / 5000)
                  hospitals_needed := pyInt (M.predict row / 50000)
                  parks_needed := pyInt (M.predict row / 10000)
                  water_capacity_mld := pyInt (M.predict row * 0.15 / 1000) } }) := by
  rw [growthLoop_getElem? M ly lp n k 1 (y0, b0, g0, e0) hk]
  rw [growthStep_iterate y0 b0 g0 e0 (k + 1)]
  rw [Nat.add_comm 1 k]
  rfl

/-- C5 (witness): the second projected year of a three-year projection
from row (4, 100, 50, 0.9) under a constant-12345 ridge model: year
2022, population 12345, 2 schools, 0 hospitals, 1 park, 1 Ml/day. -/
theorem growth_projection_features_and_needs_witness :
    (1 : ℕ) < 3 ∧
    (growthLoop ridgeW 2020 1000 (4, 100, 50, 9 / 10) 1 3)[1]? =
      some (let row : ℚ × ℚ × ℚ × ℚ :=
              (4 + ((1 + 1 : ℕ) : ℚ), 1.02 ^ (1 + 1) * 100, 1.03 ^ (1 + 1) * 50, 9 / 10)
            { year := pyInt (2020 + ((1 + 1 : ℕ) : ℚ))
              predicted_population := pyInt (ridgeW.predict row)
              growth_rate := (ridgeW.predict row / 1000 - 1) * 100
              infrastructure_needs :=
                { schools_needed := pyInt (ridgeW.predict row / 5000)
                  hospitals_needed := pyInt (ridgeW.predict row / 50000)
                  parks_needed := pyInt (ridgeW.predict row / 10000)
                  water_capacity_mld := pyInt (ridgeW.predict row * 0.15 / 1000) } }) :=
  ⟨by decide,
    growth_projection_features_and_needs ridgeW 2020 1000 4 100 50 (9 / 10) 3 1 (by decide)⟩

/-- C6: for all non-negative development goals (including all-zero
goals) and positive total parcel area, the four normalized land-use
target ratios sum to exactly 1. -/
theorem land_use_target_ratios_sum_to_one (h j g A : ℚ)
    (hh : 0 ≤ h) (hj : 0 ≤ j) (hg : 0 ≤ g) (hA : 0 < A) :
    (normalizeDistribution (optimalDistributionRaw h j g A)).1 +
      (normalizeDistribution (optimalDistributionRaw h j g A)).2.1 +
      (normalizeDistribution (optimalDistributionRaw h j g A)).2.2.1 +
      (normalizeDistribution (optimalDistributionRaw h j g A)).2.2.2 = 1 := by
  have h1 : 0 ≤ h * 50 / A := div_nonneg (mul_nonneg hh (by norm_num)) hA.le
  have h2 : 0 ≤ j * 20 / A := div_nonneg (mul_nonneg hj (by norm_num)) hA.le
  have h3 : 0 ≤ g / A := div_nonneg hg hA.le
  have hq : (0 : ℚ) < 0.1 := by norm_num
  have hS : 0 < h * 50 / A + j * 20 / A + g / A + 0.1 := by linarith
  show (h * 50 / A) / (h * 50 / A + j * 20 / A + g / A + 0.1) +
      (j * 20 / A) / (h * 50 / A + j * 20 / A + g / A + 0.1) +
      (g / A) / (h * 50 / A + j * 20 / A + g / A + 0.1) +
      (0.1 : ℚ) / (h * 50 / A + j * 20 / A + g / A + 0.1) = 1
  rw [div_add_div_same, div_add_div_same, div_add_div_same]
  exact div_self hS.ne'

/-- C6 (witness): the degenerate all-zero goals over a 100 m² area
still normalize to a sum of 1 (the fixed 10% industrial share keeps the
normalizer positive). -/
theorem land_use_target_ratios_sum_to_one_witness :
    (0 : ℚ) ≤ 0 ∧ (0 : ℚ) < 100 ∧
    (normalizeDistribution (optimalDistributionRaw 0 0 0 100)).1 +
      (normalizeDistribution (optimalDistributionRaw 0 0 0 100)).2.1 +
      (normalizeDistribution (optimalDistributionRaw 0 0 0 100)).2.2.1 +
      (normalizeDistribution (optimalDistributionRaw 0 0 0 100)).2.2.2 = 1 :=
  ⟨le_rfl, by norm_num,
    land_use_target_ratios_sum_to_one 0 0 0 100 le_rfl le_rfl le_rfl (by norm_num)⟩

/-- C9: when the clustering pass labels every demand point noise on an
input with at least 10 demand points, the average-cluster-size metric
divides zero by zero, and the caller receives the Failure envelope
"Transit optimization failed: division by zero" — not a Success with an
empty stop list. -/
theorem transit_all_noise_failure (B : Backends) (data : Args) (clusters : List ℤ)
    (h10 : ¬ (data.demand_points.getD []).length < 10)
    (hdb : B.dbscanWeighted ((data.constraints.getD {}).max_distance.getD 0.01)
        (max 3 (pyInt ((((data.demand_points.getD []).map
            (fun r => (r.lat, r.lon))).length : ℚ) * 0.05)).toNat)
        ((data.demand_points.getD []).map (fun r => (r.lat, r.lon)))
        ((data.demand_points.getD []).map (·.weight)) = .ok clusters)
    (hall : ∀ l ∈ clusters, l = -1) :
    optimize_transit_routes B data =
      .failure "Transit optimization failed: division by zero" := by
  have hfil : clusters.filter (fun l => l != -1) = [] := by
    rw [List.filter_eq_nil_iff]
    intro a ha
    simp [hall a ha]
  simp only [optimize_transit_routes, transitBody]
  rw [if_neg h10, hdb]
  simp only [hfil, List.dedup_nil, transitStops, List.length_nil, pyDivNat, wrapKernel]
  rfl

/-- C9 (witness): 10 demand points all labelled noise produce the
division-by-zero Failure envelope. -/
theorem transit_all_noise_failure_witness :
    optimize_transit_routes allNoiseB transitArgs10 =
      .failure "Transit optimization failed: division by zero" :=
  transit_all_noise_failure allNoiseB transitArgs10
    (((transitArgs10.demand_points.getD []).map (fun r => (r.lat, r.lon))).map (fun _ => -1))
    (by decide) rfl (by decide)

/-- C10: in every successful crime-hotspot result, the returned
hotspots list is capped at 20 (its length is min 20 of the anomaly
count) while the statistics are computed over all flagged anomalies:
hotspots_detected counts every −1 prediction, anomaly_rate is exactly
hotspots_detected / total_incidents, and high_risk_areas ranges over
the full anomaly list. -/
theorem crime_hotspot_statistics (B : Backends) (data : Args) (model : IsoModel)
    (hlen : ¬ (data.crime_incidents.getD []).length < 50)
    (hfit : B.isoFit (data.contamination.getD 0.1) 42
        ((((data.crime_incidents.getD []).map (fun r => (r.lat, r.lon))).zip
            ((List.range (data.crime_incidents.getD []).length).map (fun i => (i : ℚ)))).map
          (fun p => (p.1.1, p.1.2, p.2))) = .ok model) :
    ∃ o : CrimeOut,
      detect_crime_hotspots B data = .success (.crime o) ∧
      o.statistics.hotspots_detected = model.preds.countP (fun x => x == -1) ∧
      o.statistics.total_incidents = (data.crime_incidents.getD []).length ∧
      o.statistics.anomaly_rate =
        (o.statistics.hotspots_detected : ℚ) / (o.statistics.total_incidents : ℚ) ∧
      o.hotspots.length = min 20 o.statistics.hotspots_detected ∧
      o.hotspots.length ≤ 20 ∧
      o.statistics.high_risk_areas ≤ o.statistics.hotspots_detected := by
  simp only [detect_crime_hotspots, crimeBody]
  rw [if_neg hlen, hfit]
  simp only [wrapKernel]
  refine ⟨_, rfl, ?_, rfl, rfl, ?_, ?_, ?_⟩
  · show (List.map _ _).length = _
    rw [List.length_map]
    exact range_getD_count (-1) model.preds
  · show (List.take 20 _).length = min 20 (List.map _ _).length
    rw [List.length_take]
  · show (List.take 20 _).length ≤ 20
    rw [List.length_take]
    exact min_le_left _ _
  · show (List.filter _ _).length ≤ (List.map _ _).length
    exact List.length_filter_le _ _

/-- C10 (witness): 50 incidents all flagged anomalous: the statistics
count all 50, the returned list holds min 20 50 = 20 entries. -/
theorem crime_hotspot_statistics_witness :
    (∃ o : CrimeOut,
      detect_crime_hotspots allAnomB crimeArgs50 = .success (.crime o) ∧
      o.statistics.hotspots_detected = crimeWModel.preds.countP (fun x => x == -1) ∧
      o.statistics.total_incidents = (crimeArgs50.crime_incidents.getD []).length ∧
      o.statistics.anomaly_rate =
        (o.statistics.hotspots_detected : ℚ) / (o.statistics.total_incidents : ℚ) ∧
      o.hotspots.length = min 20 o.statistics.hotspots_detected ∧
      o.hotspots.length ≤ 20 ∧
      o.statistics.high_risk_areas ≤ o.statistics.hotspots_detected) ∧
    crimeWModel.preds.countP (fun x => x == -1) = 50 ∧
    min 20 (crimeWModel.preds.countP (fun x => x == -1)) = 20 :=
  ⟨crime_hotspot_statistics allAnomB crimeArgs50 crimeWModel (by decide) rfl,
    by decide, by decide⟩
